import Mathlib

/-!
Verification of the JIIOV fingerprint platform driver
(drivers/input/oplus_fp_drivers/anc_driver/jiiov_platform.c).

The driver is shallowly embedded: each C function of interest becomes a Lean
function over explicit state, kernel helpers that can fail are given their
results through small environment records, and hardware side effects are
recorded as explicit traces so properties about "what the hardware saw" can
be stated and decided.
-/

namespace JiiovPlatform

/-- strncmp(n, s, strlen(n)) == 0: the table entry n matches when it is a
prefix of the examined string s (the comparison stops after strlen(n)
characters). Used by vreg_setup, select_pin_ctl, forward_netlink_event_set
and the attribute-write token checks. -/
def strPrefixMatch (n s : String) : Bool := n.data.isPrefixOf s.data

/-- Modelled from the spec: the event-code enumeration ANC_NETLINK_EVENT_TYPE
of the header jiiov_platform.h, which is not under src/ (spec section 3 lists
test, irq, screen-off, screen-on, touch-down, touch-up, ui-ready, exit and an
invalid marker). Codes are assigned in spec order; the development relies only
on their distinctness and on each fitting in one byte. -/
inductive ANC_NETLINK_EVENT where
  | TEST
  | IRQ
  | SCR_OFF
  | SCR_ON
  | TOUCH_DOWN
  | TOUCH_UP
  | UI_READY
  | EXIT
  | INVALID
deriving DecidableEq

/-- The numeric value of each event code (see ANC_NETLINK_EVENT). -/
def eventCode : ANC_NETLINK_EVENT → Nat
  | .TEST => 0
  | .IRQ => 1
  | .SCR_OFF => 2
  | .SCR_ON => 3
  | .TOUCH_DOWN => 4
  | .TOUCH_UP => 5
  | .UI_READY => 6
  | .EXIT => 7
  | .INVALID => 8

/-- One call handed to netlink_send_message_to_user: the value at the buffer
pointer and the byte length passed (the C sizeof of the object sent). -/
structure SendAttempt where
  code : Nat
  length : Nat
deriving DecidableEq

/-- Shallow embedding of anc_opticalfp_tp_handler (jiiov_platform.c:232).
The process-wide state is lasttouchmode; the result is (new lasttouchmode,
messages handed to netlink_send_message_to_user, C return value). A repeated
touch state returns 0 at once with no message; a changed state sends
ANC_NETLINK_EVENT_TOUCH_DOWN when the new state is 1 and TOUCH_UP otherwise
(one byte, sizeof(char)), then records the new state. The __pm_wakeup_event
call changes neither the state nor the message stream and is not modelled. -/
def anc_opticalfp_tp_handler (lasttouchmode touch_state : Nat) :
    Nat × List SendAttempt × Int :=
  if touch_state = lasttouchmode then (lasttouchmode, [], 0)
  else (touch_state,
    [⟨eventCode (if touch_state = 1 then .TOUCH_DOWN else .TOUCH_UP), 1⟩], 0)

/-- A sequence of invocations of the touch handler: threads lasttouchmode
through and concatenates the messages in emission order. -/
def tp_handler_run (lasttouchmode : Nat) : List Nat → Nat × List SendAttempt
  | [] => (lasttouchmode, [])
  | t :: ts =>
    let r := anc_opticalfp_tp_handler lasttouchmode t
    let rest := tp_handler_run r.1 ts
    (rest.1, r.2.1 ++ rest.2)

lemma tp_handler_run_steady (s : Nat) (m : Nat) :
    tp_handler_run s (List.replicate m s) = (s, []) := by
  induction m with
  | zero => rfl
  | succ k ih =>
    simp [List.replicate_succ, tp_handler_run, anc_opticalfp_tp_handler, ih]

/-- C1: for every invocation of the touch handler, a message is emitted iff
the incoming touch state differs from the recorded lasttouchmode; invoking the
handler n >= 1 times in a row with the same state v yields exactly one message
when v differs from the initial state (touch-down when v = 1, touch-up
otherwise) and no message when it does not, and lasttouchmode equals v
afterwards. -/
theorem c1_touch_handler_dedup (last v n : Nat) (hn : 1 ≤ n) :
    ((anc_opticalfp_tp_handler last v).2.1 ≠ [] ↔ v ≠ last) ∧
    tp_handler_run last (List.replicate n v) =
      (v, if v = last then []
          else [⟨eventCode (if v = 1 then .TOUCH_DOWN else .TOUCH_UP), 1⟩]) := by
  constructor
  · by_cases h : v = last <;> simp [anc_opticalfp_tp_handler, h]
  · obtain ⟨k, rfl⟩ : ∃ k, n = k + 1 := ⟨n - 1, (Nat.succ_pred_eq_of_pos hn).symm⟩
    by_cases h : v = last
    · subst h
      simp [tp_handler_run_steady]
    · simp [List.replicate_succ, tp_handler_run, anc_opticalfp_tp_handler, h,
        tp_handler_run_steady]

/-- Witness for c1_touch_handler_dedup at last = 0, v = 1, n = 3. -/
theorem c1_touch_handler_dedup_witness :
    ((anc_opticalfp_tp_handler 0 1).2.1 ≠ [] ↔ (1 : Nat) ≠ 0) ∧
    tp_handler_run 0 (List.replicate 3 1) =
      (1, if (1 : Nat) = 0 then []
          else [⟨eventCode (if (1 : Nat) = 1 then .TOUCH_DOWN else .TOUCH_UP), 1⟩]) :=
  c1_touch_handler_dedup 0 1 3 (by decide)

/-- One netlink_unicast invocation performed by the send path: the value of
gp_netlink_sock passed as the socket argument (none models a NULL pointer),
and the payload value and byte length of the message. -/
structure UnicastCall where
  sock : Option Nat
  code : Nat
  length : Nat
deriving DecidableEq

/-- Results of the fallible kernel calls inside netlink_send_message:
nlmsg_new, nlmsg_put, and the netlink_unicast return value. -/
structure NetlinkEnv where
  allocOk : Bool
  putOk : Bool
  unicastRet : Int
deriving DecidableEq

/-- Shallow embedding of netlink_send_message (jiiov_platform.c:102):
allocates a message (-ENOMEM on failure), writes the header (-ENOMEM on
failure, message freed), copies the payload, then calls netlink_unicast on
gp_netlink_sock — with no check of gp_netlink_sock whatsoever. The result is
the C return value together with the list of netlink_unicast invocations
performed (recording which socket value each one used). -/
def netlink_send_message (env : NetlinkEnv) (sock : Option Nat)
    (code length : Nat) : Int × List UnicastCall :=
  if !env.allocOk then (-12, [])
  else if !env.putOk then (-12, [])
  else (env.unicastRet, [⟨sock, code, length⟩])

/-- Shallow embedding of netlink_send_message_to_user (jiiov_platform.c:125):
rejects a zero length with -EINVAL, otherwise forwards to
netlink_send_message. (The p_buffer pointer is the address of a local in
every caller and thus never NULL; the embedding passes its value.) -/
def netlink_send_message_to_user (env : NetlinkEnv) (sock : Option Nat)
    (code length : Nat) : Int × List UnicastCall :=
  if 0 < length then netlink_send_message env sock code length
  else (-22, [])

/-- Shallow embedding of anc_netlink_init (jiiov_platform.c:150):
netlink_kernel_create either yields a socket (stored in gp_netlink_sock,
return 0) or NULL (gp_netlink_sock stays NULL, return -ENOMEM). -/
def anc_netlink_init (created : Option Nat) : Int × Option Nat :=
  match created with
  | none => (-12, none)
  | some s => (0, some s)

/-- Shallow embedding of anc_netlink_exit (jiiov_platform.c:161): releases
the socket when non-NULL and sets gp_netlink_sock to NULL; the result is the
new value of gp_netlink_sock. -/
def anc_netlink_exit (sock : Option Nat) : Option Nat :=
  match sock with
  | some _ => none
  | none => none

/-- C3 is false as the claim states it: teardown does clear the handle, but a
send invoked with gp_netlink_sock = NULL (before init or after teardown) is
neither rejected nor a no-op — with successful allocations it proceeds to a
netlink_unicast invocation that uses the NULL socket value. Concrete input:
env = (allocOk, putOk, unicastRet 7), sock = none, payload 2, length 1. -/
theorem c3_counterexample :
    anc_netlink_exit (some 5) = none ∧
    netlink_send_message_to_user ⟨true, true, 7⟩ none 2 1 = (7, [⟨none, 2, 1⟩]) ∧
    (netlink_send_message_to_user ⟨true, true, 7⟩ none 2 1).2 ≠ [] := by
  decide

/-- C3 amended: teardown clears the endpoint handle to NULL, but the send
path never re-checks it — only a zero-length payload or an allocation failure
aborts a send; when the allocations succeed and the payload is non-empty, the
send performs a netlink_unicast on whatever handle value is current, the NULL
one included. -/
theorem c3_amended (env : NetlinkEnv) (sock : Option Nat) (code length : Nat) :
    anc_netlink_exit sock = none ∧
    (length = 0 → netlink_send_message_to_user env sock code length = (-22, [])) ∧
    (env.allocOk = false →
      netlink_send_message_to_user env sock code 1 = (-12, [])) ∧
    (env.allocOk = true → env.putOk = true → 0 < length →
      netlink_send_message_to_user env sock code length =
        (env.unicastRet, [⟨sock, code, length⟩])) := by
  refine ⟨?_, ?_, ?_, ?_⟩
  · cases sock <;> rfl
  · intro h
    simp [h, netlink_send_message_to_user]
  · intro h
    simp [netlink_send_message_to_user, netlink_send_message, h]
  · intro h1 h2 h3
    simp [netlink_send_message_to_user, netlink_send_message, h1, h2, h3]

/-- Witness for c3_amended at env = (true, true, 3), sock = some 1,
code = 4, length = 1. -/
theorem c3_amended_witness :
    anc_netlink_exit (some 1) = none ∧
    ((1 : Nat) = 0 → netlink_send_message_to_user ⟨true, true, 3⟩ (some 1) 4 1 = (-22, [])) ∧
    ((⟨true, true, 3⟩ : NetlinkEnv).allocOk = false →
      netlink_send_message_to_user ⟨true, true, 3⟩ (some 1) 4 1 = (-12, [])) ∧
    ((⟨true, true, 3⟩ : NetlinkEnv).allocOk = true →
      (⟨true, true, 3⟩ : NetlinkEnv).putOk = true → 0 < 1 →
      netlink_send_message_to_user ⟨true, true, 3⟩ (some 1) 4 1 =
        ((⟨true, true, 3⟩ : NetlinkEnv).unicastRet, [⟨some 1, 4, 1⟩])) :=
  c3_amended ⟨true, true, 3⟩ (some 1) 4 1

/-- Constants of the external header msm_drm_notify.h (the display subsystem
is an external collaborator; only the distinctness of these codes is relied
on by the driver and by this development). -/
def MSM_DRM_EARLY_EVENT_BLANK : Nat := 1

/-- See MSM_DRM_EARLY_EVENT_BLANK. -/
def MSM_DRM_ONSCREENFINGERPRINT_EVENT : Nat := 18

/-- See MSM_DRM_EARLY_EVENT_BLANK. -/
def MSM_DRM_BLANK_UNBLANK : Nat := 0

/-- See MSM_DRM_EARLY_EVENT_BLANK. -/
def MSM_DRM_BLANK_POWERDOWN : Nat := 1

/-- NOTIFY_OK of the kernel notifier interface. -/
def NOTIFY_OK : Nat := 1

/-- Modelled from the spec: the operational-mode codes ANC_UI_DISAPPREAR and
ANC_UI_READY of the header jiiov_platform.h, which is not under src/; only
their distinctness is relied on. -/
def ANC_UI_DISAPPREAR : Nat := 0

/-- See ANC_UI_DISAPPREAR. -/
def ANC_UI_READY : Nat := 1

/-- The struct msm_drm_notifier argument of the display callback: data models
the void pointer payload (evdata->data); the stored Nat is the integer at
that address, read as uint8_t by the operational-mode branch and as unsigned
int by the blank branch. The callback receives the notifier itself through a
possibly NULL pointer, modelled by Option at the call site. -/
structure MsmDrmNotifierData where
  data : Option Nat
deriving DecidableEq

/-- Shallow embedding of anc_fb_state_chg_callback (jiiov_platform.c:249).
A result of none models the NULL-pointer dereference in the
operational-mode branch, which reads op_mode through evdata->data with no
NULL check on either pointer; the early-blank branch guards with
(evdata && evdata->data) and falls through to return NOTIFY_OK when the guard
fails. Otherwise the result is some (new fb_black, messages handed to
netlink_send_message_to_user, notifier return value). -/
def anc_fb_state_chg_callback (val : Nat) (evdata : Option MsmDrmNotifierData)
    (fb_black : Nat) : Option (Nat × List SendAttempt × Nat) :=
  if val = MSM_DRM_ONSCREENFINGERPRINT_EVENT then
    match evdata with
    | none => none
    | some e =>
      match e.data with
      | none => none
      | some p =>
        let op_mode := p % 256
        if op_mode = ANC_UI_READY then
          some (fb_black, [⟨eventCode .UI_READY, 1⟩], NOTIFY_OK)
        else
          some (fb_black, [], NOTIFY_OK)
  else if val = MSM_DRM_EARLY_EVENT_BLANK then
    match evdata with
    | none => some (fb_black, [], NOTIFY_OK)
    | some e =>
      match e.data with
      | none => some (fb_black, [], NOTIFY_OK)
      | some blank =>
        if blank = MSM_DRM_BLANK_POWERDOWN then
          some (1, [⟨eventCode .SCR_OFF, 1⟩], NOTIFY_OK)
        else if blank = MSM_DRM_BLANK_UNBLANK then
          some (0, [⟨eventCode .SCR_ON, 1⟩], NOTIFY_OK)
        else
          some (fb_black, [], NOTIFY_OK)
  else some (fb_black, [], NOTIFY_OK)

/-- C5: a display-notifier invocation carrying an early-blank event with a
readable blank code behaves as specified — POWERDOWN yields exactly one
screen-off message and sets fb_black to 1 (true), UNBLANK yields exactly one
screen-on message and sets fb_black to 0 (false), and any other blank code
yields no message and leaves fb_black unchanged. -/
theorem c5_display_blank (fb pay : Nat)
    (h1 : pay ≠ MSM_DRM_BLANK_POWERDOWN) (h2 : pay ≠ MSM_DRM_BLANK_UNBLANK) :
    anc_fb_state_chg_callback MSM_DRM_EARLY_EVENT_BLANK
        (some ⟨some MSM_DRM_BLANK_POWERDOWN⟩) fb =
      some (1, [⟨eventCode .SCR_OFF, 1⟩], NOTIFY_OK) ∧
    anc_fb_state_chg_callback MSM_DRM_EARLY_EVENT_BLANK
        (some ⟨some MSM_DRM_BLANK_UNBLANK⟩) fb =
      some (0, [⟨eventCode .SCR_ON, 1⟩], NOTIFY_OK) ∧
    anc_fb_state_chg_callback MSM_DRM_EARLY_EVENT_BLANK
        (some ⟨some pay⟩) fb = some (fb, [], NOTIFY_OK) := by
  refine ⟨rfl, rfl, ?_⟩
  simp only [anc_fb_state_chg_callback, MSM_DRM_EARLY_EVENT_BLANK,
    MSM_DRM_ONSCREENFINGERPRINT_EVENT, MSM_DRM_BLANK_POWERDOWN,
    MSM_DRM_BLANK_UNBLANK] at h1 h2 ⊢
  simp [h1, h2]

/-- Witness for c5_display_blank at fb = 0, pay = 2. -/
theorem c5_display_blank_witness :
    anc_fb_state_chg_callback MSM_DRM_EARLY_EVENT_BLANK
        (some ⟨some MSM_DRM_BLANK_POWERDOWN⟩) 0 =
      some (1, [⟨eventCode .SCR_OFF, 1⟩], NOTIFY_OK) ∧
    anc_fb_state_chg_callback MSM_DRM_EARLY_EVENT_BLANK
        (some ⟨some MSM_DRM_BLANK_UNBLANK⟩) 0 =
      some (0, [⟨eventCode .SCR_ON, 1⟩], NOTIFY_OK) ∧
    anc_fb_state_chg_callback MSM_DRM_EARLY_EVENT_BLANK
        (some ⟨some 2⟩) 0 = some (0, [], NOTIFY_OK) :=
  c5_display_blank 0 2 (by decide) (by decide)

/-- C10 is false as the claim states it: the operational-mode branch of the
display callback reads through evdata and evdata->data with no NULL
verification — at val = MSM_DRM_ONSCREENFINGERPRINT_EVENT with a NULL evdata
(or a NULL payload pointer) the handler dereferences the NULL pointer
(modelled result none) instead of returning safely. -/
theorem c10_counterexample :
    anc_fb_state_chg_callback MSM_DRM_ONSCREENFINGERPRINT_EVENT none 0 = none ∧
    anc_fb_state_chg_callback MSM_DRM_ONSCREENFINGERPRINT_EVENT (some ⟨none⟩) 0 = none := by
  decide

/-- C10 amended: the early-blank branch verifies evdata and evdata->data
before reading the blank code and is total in the payload pointers, but the
operational-mode branch reads the mode through both pointers without any
verification, so a NULL evdata or NULL payload pointer there is dereferenced. -/
theorem c10_amended (fb pay : Nat) :
    anc_fb_state_chg_callback MSM_DRM_ONSCREENFINGERPRINT_EVENT none fb = none ∧
    anc_fb_state_chg_callback MSM_DRM_ONSCREENFINGERPRINT_EVENT (some ⟨none⟩) fb = none ∧
    anc_fb_state_chg_callback MSM_DRM_EARLY_EVENT_BLANK none fb =
      some (fb, [], NOTIFY_OK) ∧
    anc_fb_state_chg_callback MSM_DRM_EARLY_EVENT_BLANK (some ⟨none⟩) fb =
      some (fb, [], NOTIFY_OK) ∧
    (anc_fb_state_chg_callback MSM_DRM_EARLY_EVENT_BLANK (some ⟨some pay⟩) fb).isSome = true := by
  refine ⟨rfl, rfl, rfl, rfl, ?_⟩
  by_cases hp : pay = 1 <;> by_cases hu : pay = 0 <;>
    simp [anc_fb_state_chg_callback, MSM_DRM_EARLY_EVENT_BLANK,
      MSM_DRM_ONSCREENFINGERPRINT_EVENT, MSM_DRM_BLANK_POWERDOWN,
      MSM_DRM_BLANK_UNBLANK, hp, hu]

/-- The static name-to-event table netlink_event_map (jiiov_platform.c:290). -/
def netlink_event_map : List (String × ANC_NETLINK_EVENT) :=
  [("test", .TEST), ("irq", .IRQ), ("screen_off", .SCR_OFF), ("screen_on", .SCR_ON),
   ("touch_down", .TOUCH_DOWN), ("touch_up", .TOUCH_UP), ("ui_ready", .UI_READY),
   ("exit", .EXIT)]

/-- sizeof(ANC_NETLINK_EVENT_TYPE), the length forward_netlink_event_set
passes to the send path: a C enum is int-sized on this target ABI, so the
object sent is 4 bytes, not the 1 byte of the char used by the handlers. -/
def sizeofEventType : Nat := 4

/-- Shallow embedding of forward_netlink_event_set (jiiov_platform.c:307):
scans netlink_event_map for the first entry whose name is a prefix of the
written buffer (strncmp over the entry name's length); no match leaves the
event at ANC_NETLINK_EVENT_INVALID, which is rejected with -EINVAL; a match
forwards the enum value with length sizeof(ANC_NETLINK_EVENT_TYPE). Result:
(return value, messages handed to netlink_send_message_to_user, unicast
invocations performed). -/
def forward_netlink_event_set (env : NetlinkEnv) (sock : Option Nat)
    (p_buffer : String) : Int × List SendAttempt × List UnicastCall :=
  match netlink_event_map.find? (fun e => strPrefixMatch e.1 p_buffer) with
  | none => (-22, [], [])
  | some e =>
    let r := netlink_send_message_to_user env sock (eventCode e.2) sizeofEventType
    (r.1, [⟨eventCode e.2, sizeofEventType⟩], r.2)

/-- The messages handed to the send path by one display-callback invocation
(none, the NULL dereference, contributes no message). -/
def fbAttempts : Option (Nat × List SendAttempt × Nat) → List SendAttempt
  | none => []
  | some r => r.2.1

/-- All nine event codes of ANC_NETLINK_EVENT_TYPE. -/
def allEvents : List ANC_NETLINK_EVENT :=
  [.TEST, .IRQ, .SCR_OFF, .SCR_ON, .TOUCH_DOWN, .TOUCH_UP, .UI_READY, .EXIT, .INVALID]

/-- A message whose byte length is len and whose value is one of the event
codes of the enumeration. -/
def eventAttemptOk (len : Nat) (m : SendAttempt) : Bool :=
  m.length == len && (allEvents.map eventCode).contains m.code

lemma eventAttemptOk_event (ev : ANC_NETLINK_EVENT) (len : Nat) :
    eventAttemptOk len ⟨eventCode ev, len⟩ = true := by
  cases ev <;> simp [eventAttemptOk, allEvents, eventCode]

/-- C2 is false as the claim states it: the netlink_event attribute write
path does not send a one-byte payload — at the concrete input "test" it hands
the send path the event value with length sizeof(ANC_NETLINK_EVENT_TYPE) = 4,
and 4 is not 1. -/
theorem c2_counterexample :
    (forward_netlink_event_set ⟨true, true, 0⟩ (some 1) "test").2.1 =
      [⟨eventCode .TEST, 4⟩] ∧ sizeofEventType ≠ 1 := by
  decide

/-- C2 amended: messages sent by the touch handler and the display handler
carry exactly one byte equal to an event-code enum value, but the
netlink_event attribute write passes sizeof(ANC_NETLINK_EVENT_TYPE) = 4 bytes
(the event-code value as an int), not one byte. -/
theorem c2_amended_payloads (last v val fb : Nat) (e : Option MsmDrmNotifierData)
    (env : NetlinkEnv) (sock : Option Nat) (buf : String) :
    ((anc_opticalfp_tp_handler last v).2.1.all (eventAttemptOk 1)) = true ∧
    ((fbAttempts (anc_fb_state_chg_callback val e fb)).all (eventAttemptOk 1)) = true ∧
    ((forward_netlink_event_set env sock buf).2.1.all (eventAttemptOk 4)) = true := by
  refine ⟨?_, ?_, ?_⟩
  · unfold anc_opticalfp_tp_handler
    split
    · simp
    · split <;> simp [eventAttemptOk_event]
  · rcases e with - | ⟨pd⟩
    · simp only [anc_fb_state_chg_callback]
      split_ifs <;> simp [fbAttempts]
    · rcases pd with - | pv
      · simp only [anc_fb_state_chg_callback]
        split_ifs <;> simp [fbAttempts]
      · simp only [anc_fb_state_chg_callback]
        split_ifs <;> simp [fbAttempts, eventAttemptOk_event]
  · unfold forward_netlink_event_set
    cases hf : netlink_event_map.find? (fun e => strPrefixMatch e.1 buf) with
    | none => simp
    | some p =>
      have h4 : eventAttemptOk 4 ⟨eventCode p.2, 4⟩ = true :=
        eventAttemptOk_event p.2 4
      simp [sizeofEventType, h4]

/-- A hardware operation performed by the Sequencer paths: a
pinctrl_select_state on slot i of pinctrl_state, an mdelay, a
gpio_set_value on the power GPIO, or a vreg_setup run on the regulator. -/
inductive HwOp where
  | selectState (i : Nat)
  | delay (ms : Nat)
  | gpioSet (v : Bool)
  | vregRun (enable : Bool)
deriving DecidableEq

/-- A trace event of a control-plane entry point: mutex_lock, mutex_unlock,
or a hardware operation. -/
inductive TraceEv where
  | lock
  | unlock
  | hw (op : HwOp)
deriving DecidableEq

/-- The static pin-state name table pctl_names (jiiov_platform.c:55). -/
def pctl_names : List String := ["anc_reset_reset", "anc_reset_active"]

/-- Shallow embedding of select_pin_ctl (jiiov_platform.c:341): scans
pctl_names for the first entry that is a prefix of name (strncmp over the
entry's length) and calls pinctrl_select_state on that slot; env i is the
pinctrl_select_state return value for slot i. An unmatched name returns
-EINVAL with no hardware call. Result: (return value, hardware trace). -/
def select_pin_ctl (env : Nat → Int) (name : String) : Int × List TraceEv :=
  match (List.range pctl_names.length).find?
      (fun i => strPrefixMatch (pctl_names.getD i "") name) with
  | some i => (env i, [.hw (.selectState i)])
  | none => (-22, [])

lemma select_pin_ctl_trace (env : Nat → Int) (name : String) :
    (select_pin_ctl env name).2 = [] ∨
    ∃ i, (select_pin_ctl env name).2 = [.hw (.selectState i)] := by
  unfold select_pin_ctl
  cases (List.range pctl_names.length).find?
      (fun i => strPrefixMatch (pctl_names.getD i "") name) with
  | none => exact Or.inl rfl
  | some i => exact Or.inr ⟨i, rfl⟩

/-- C9: for every pin-state name that matches no entry of pctl_names (the
exact-or-prefix strncmp match), select_pin_ctl returns -EINVAL (NotFound) and
performs no hardware state change: its trace contains no
pinctrl_select_state call. -/
theorem c9_select_pin_notfound (env : Nat → Int) (name : String)
    (h : ∀ n ∈ pctl_names, strPrefixMatch n name = false) :
    select_pin_ctl env name = (-22, []) := by
  have h0 := h "anc_reset_reset" (by decide)
  have h1 := h "anc_reset_active" (by decide)
  have hf : (List.range pctl_names.length).find?
      (fun i => strPrefixMatch (pctl_names.getD i "") name) = none := by
    rw [List.find?_eq_none]
    intro i hi
    have hi2 : i = 0 ∨ i = 1 := by
      have hr : List.range pctl_names.length = [0, 1] := by decide
      rw [hr] at hi
      simpa using hi
    rcases hi2 with rfl | rfl
    · simpa [pctl_names] using h0
    · simpa [pctl_names] using h1
  unfold select_pin_ctl
  rw [hf]

/-- Witness for c9_select_pin_notfound at name = "foo". -/
theorem c9_select_pin_notfound_witness :
    (∀ n ∈ pctl_names, strPrefixMatch n "foo" = false) ∧
    select_pin_ctl (fun _ => 0) "foo" = (-22, []) :=
  ⟨by decide, c9_select_pin_notfound (fun _ => 0) "foo" (by decide)⟩

/-- Shallow embedding of anc_reset (jiiov_platform.c:381): under the mutex,
selects "anc_reset_reset", mdelay(10), selects "anc_reset_active",
mdelay(10); the second select runs regardless of the first result and the
return value is rc |= ... (bitwise or of the two step results). -/
def anc_reset (env : Nat → Int) : Int × List TraceEv :=
  let r1 := select_pin_ctl env "anc_reset_reset"
  let r2 := select_pin_ctl env "anc_reset_active"
  (Int.lor r1.1 r2.1,
    [TraceEv.lock] ++ r1.2 ++ [TraceEv.hw (.delay 10)] ++ r2.2 ++
      [TraceEv.hw (.delay 10), TraceEv.unlock])

lemma anc_reset_eval (env : Nat → Int) :
    anc_reset env = (Int.lor (env 0) (env 1),
      [.lock, .hw (.selectState 0), .hw (.delay 10), .hw (.selectState 1),
       .hw (.delay 10), .unlock]) := rfl

/-- C4: every call to anc_reset performs exactly two pin-state transitions —
slot 0 ("anc_reset_reset", reset-deasserted) then slot 1 ("anc_reset_active")
— each followed by an mdelay of 10 ms (at least 10 ms); the second transition
appears in the trace whatever env 0, the first step's result, is, and the
returned value is the bitwise-or combination of both step results. -/
theorem c4_reset_two_transitions (env : Nat → Int) :
    anc_reset env = (Int.lor (env 0) (env 1),
      [.lock, .hw (.selectState 0), .hw (.delay 10), .hw (.selectState 1),
       .hw (.delay 10), .unlock]) :=
  anc_reset_eval env

/-- Shallow embedding of anc_power_onoff (jiiov_platform.c:412): in
GPIO-power mode drives the power GPIO with gpio_set_value, otherwise runs
vreg_setup on the "ldo" regulator. Each is one hardware operation in the
trace; the regulator state machine itself is modelled separately as
vreg_setup. -/
def anc_power_onoff (gpioFlag : Bool) (onoff : Bool) : List TraceEv :=
  if gpioFlag then [.hw (.gpioSet onoff)] else [.hw (.vregRun onoff)]

/-- Shallow embedding of pinctl_set (jiiov_platform.c:368): takes the mutex,
runs select_pin_ctl on the written buffer, releases the mutex; returns rc
when non-zero, count otherwise. -/
def pinctl_set (env : Nat → Int) (buf : String) (count : Int) :
    Int × List TraceEv :=
  let r := select_pin_ctl env buf
  (if r.1 = 0 then count else r.1, [TraceEv.lock] ++ r.2 ++ [TraceEv.unlock])

/-- Shallow embedding of device_power_set (jiiov_platform.c:431): takes the
mutex, then compares the buffer against "on" / "off" (prefix strncmp) and
runs anc_power_onoff accordingly (-EINVAL on any other token), then releases
the mutex. -/
def device_power_set (gpioFlag : Bool) (buf : String) (count : Int) :
    Int × List TraceEv :=
  if strPrefixMatch "on" buf then
    (count, [TraceEv.lock] ++ anc_power_onoff gpioFlag true ++ [TraceEv.unlock])
  else if strPrefixMatch "off" buf then
    (count, [TraceEv.lock] ++ anc_power_onoff gpioFlag false ++ [TraceEv.unlock])
  else (-22, [TraceEv.lock, TraceEv.unlock])

/-- Shallow embedding of hw_reset_set (jiiov_platform.c:396): a buffer
starting with "reset" runs anc_reset (which takes the mutex itself); any
other token returns -EINVAL with no hardware action. -/
def hw_reset_set (env : Nat → Int) (buf : String) (count : Int) :
    Int × List TraceEv :=
  if strPrefixMatch "reset" buf then
    let r := anc_reset env
    (if r.1 = 0 then count else r.1, r.2)
  else (-22, [])

/-- Modelled from the spec: the ioctl command codes ANC_IOC_* of the header
jiiov_platform.h, which is not under src/ (spec section 6 lists the four
action codes); badMagic in anc_ioctl models _IOC_TYPE(cmd) != ANC_IOC_MAGIC. -/
inductive AncIoctlCmd where
  | IOC_RESET
  | IOC_ENABLE_POWER
  | IOC_DISABLE_POWER
  | IOC_CLEAR_FLAG
  | IOC_OTHER (n : Nat)
deriving DecidableEq

/-- Shallow embedding of anc_ioctl (jiiov_platform.c:550): a command of the
wrong family returns -ENOTTY; RESET goes through anc_reset (which takes the
mutex), ENABLE_POWER and DISABLE_POWER call anc_power_onoff directly with no
mutex, CLEAR_FLAG zeroes lasttouchmode, and an unknown command number returns
-EINVAL. Result: (return value, hardware trace, new lasttouchmode). -/
def anc_ioctl (env : Nat → Int) (gpioFlag : Bool) (badMagic : Bool)
    (cmd : AncIoctlCmd) (lasttouchmode : Nat) : Int × List TraceEv × Nat :=
  if badMagic then (-25, [], lasttouchmode)
  else
    match cmd with
    | .IOC_RESET =>
      let r := anc_reset env
      (r.1, r.2, lasttouchmode)
    | .IOC_ENABLE_POWER => (0, anc_power_onoff gpioFlag true, lasttouchmode)
    | .IOC_DISABLE_POWER => (0, anc_power_onoff gpioFlag false, lasttouchmode)
    | .IOC_CLEAR_FLAG => (0, [], 0)
    | .IOC_OTHER _ => (-22, [], lasttouchmode)

/-- The hardware operations of a trace, each paired with the mutex depth at
which it executes. -/
def opsWithDepth : List TraceEv → Nat → List (HwOp × Nat)
  | [], _ => []
  | .lock :: ts, d => opsWithDepth ts (d + 1)
  | .unlock :: ts, d => opsWithDepth ts (d - 1)
  | .hw op :: ts, d => (op, d) :: opsWithDepth ts d

/-- Every hardware operation of the trace executes while the mutex is held. -/
def allOpsLocked (t : List TraceEv) : Bool :=
  (opsWithDepth t 0).all fun p => p.2 != 0

lemma allOpsLocked_pair : allOpsLocked [.lock, .unlock] = true := rfl

lemma allOpsLocked_one (op : HwOp) :
    allOpsLocked [.lock, .hw op, .unlock] = true := rfl

lemma allOpsLocked_reset (a b c d : HwOp) :
    allOpsLocked [.lock, .hw a, .hw b, .hw c, .hw d, .unlock] = true := rfl

/-- C6 is false as the claim states it: the ENABLE_POWER ioctl command calls
anc_power_onoff directly, so its one hardware operation (here the vreg_setup
run of non-GPIO-power mode) executes at mutex depth 0 — without the
Sequencer's lock. -/
theorem c6_counterexample :
    (anc_ioctl (fun _ => 0) false false .IOC_ENABLE_POWER 0).2.1 =
      [TraceEv.hw (.vregRun true)] ∧
    allOpsLocked [TraceEv.hw (.vregRun true)] = false :=
  ⟨rfl, rfl⟩

/-- C6 amended: the pin-select and reset operations of every control-plane
path, and the power operations of the device_power attribute write, execute
with the mutex held; but the power operations dispatched through the ioctl
ENABLE_POWER / DISABLE_POWER commands run without the mutex. -/
theorem c6_amended_locking (env : Nat → Int) (gpioFlag : Bool) (buf : String)
    (count : Int) (lt : Nat) :
    allOpsLocked (pinctl_set env buf count).2 = true ∧
    allOpsLocked (device_power_set gpioFlag buf count).2 = true ∧
    allOpsLocked (hw_reset_set env buf count).2 = true ∧
    allOpsLocked (anc_ioctl env gpioFlag false .IOC_RESET lt).2.1 = true ∧
    allOpsLocked (anc_ioctl env gpioFlag false .IOC_ENABLE_POWER lt).2.1 = false ∧
    allOpsLocked (anc_ioctl env gpioFlag false .IOC_DISABLE_POWER lt).2.1 = false := by
  refine ⟨?_, ?_, ?_, ?_, ?_, ?_⟩
  · rcases select_pin_ctl_trace env buf with h | ⟨i, h⟩ <;>
      simp [pinctl_set, h, allOpsLocked_pair, allOpsLocked_one]
  · unfold device_power_set anc_power_onoff
    split_ifs <;> simp [allOpsLocked_pair, allOpsLocked_one]
  · unfold hw_reset_set
    split_ifs
    · rw [anc_reset_eval]
      exact allOpsLocked_reset _ _ _ _
    · rfl
  · show allOpsLocked (anc_reset env).2 = true
    rw [anc_reset_eval]
    exact allOpsLocked_reset _ _ _ _
  · cases gpioFlag <;> rfl
  · cases gpioFlag <;> rfl

/-- Results of the regulator-subsystem calls inside vreg_setup:
regulator_get (some handle, or none for an IS_ERR pointer whose PTR_ERR is
getErr), regulator_count_voltages, regulator_set_voltage,
regulator_set_load and regulator_enable return codes. -/
structure RegEnv where
  getOk : Option Nat
  getErr : Int
  countVoltages : Int
  setVoltageRc : Int
  setLoadRc : Int
  enableRc : Int
deriving DecidableEq

/-- The regulator slot of the driver: handle is data->vreg[0] (none models
NULL), enabled is the regulator's hardware enable state as this driver drives
it (regulator_is_enabled). -/
structure RegState where
  handle : Option Nat
  enabled : Bool
deriving DecidableEq

/-- The enable sequence of vreg_setup once the handle is held
(jiiov_platform.c:190-210): set_voltage when the regulator reports voltages
(an error returns at once, handle kept), then set_load (same), then
regulator_enable — whose failure puts the regulator and clears the handle;
success marks the regulator enabled and returns 0. -/
def vreg_setup_enable (env : RegEnv) (s : RegState) : Int × RegState :=
  if 0 < env.countVoltages ∧ env.setVoltageRc ≠ 0 then (env.setVoltageRc, s)
  else if env.setLoadRc ≠ 0 then (env.setLoadRc, s)
  else if env.enableRc ≠ 0 then (env.enableRc, { handle := none, enabled := s.enabled })
  else (0, { s with enabled := true })

/-- Shallow embedding of vreg_setup (jiiov_platform.c:170) at the single
"ldo" entry of vreg_conf. The entry matches when the table name is a prefix
of the requested name (strncmp over the table name's length); an unmatched
name returns -EINVAL. Enable: the handle is lazily acquired through
regulator_get (an IS_ERR result returns PTR_ERR without storing a handle; a
success stores the handle at once), then the enable sequence runs. Disable:
when a handle exists, the regulator is disabled if enabled, put, and the
handle cleared; with no handle, a no-op returning 0. -/
def vreg_setup (env : RegEnv) (s : RegState) (name : String) (enable : Bool) :
    Int × RegState :=
  if strPrefixMatch "ldo" name then
    if enable then
      match s.handle with
      | none =>
        match env.getOk with
        | none => (env.getErr, s)
        | some h => vreg_setup_enable env { handle := some h, enabled := s.enabled }
      | some _ => vreg_setup_enable env s
    else
      match s.handle with
      | some _ => (0, { handle := none, enabled := false })
      | none => (0, s)
  else (-22, s)

/-- C7 is false as the claim states it: with a concrete environment in which
regulator_get succeeds (handle 1), the regulator reports voltages and
regulator_set_voltage fails with -22, an enable run from the released state
returns the error with the handle still stored and the regulator not enabled
— the handle is non-null while the regulator is not enabled. -/
theorem c7_counterexample :
    vreg_setup ⟨some 1, 0, 1, -22, 0, 0⟩ ⟨none, false⟩ "ldo" true =
      (-22, ⟨some 1, false⟩) ∧
    (vreg_setup ⟨some 1, 0, 1, -22, 0, 0⟩ ⟨none, false⟩ "ldo" true).2.handle ≠ none ∧
    (vreg_setup ⟨some 1, 0, 1, -22, 0, 0⟩ ⟨none, false⟩ "ldo" true).2.enabled = false := by
  decide

lemma ldo_self : strPrefixMatch "ldo" "ldo" = true := by decide

lemma vreg_setup_disable_handle (env : RegEnv) (s : RegState) :
    (vreg_setup env s "ldo" false).2.handle = none ∨
    (vreg_setup env s "ldo" false).2 = s ∧ s.handle = none := by
  cases hh : s.handle with
  | none => exact Or.inr ⟨by simp [vreg_setup, hh, ldo_self], by simp [hh]⟩
  | some h => exact Or.inl (by simp [vreg_setup, hh, ldo_self])

/-- C7 amended: every disable with a held handle releases and nulls it, a
disable with no handle is a no-op, and power(on=true) immediately followed by
power(on=false) leaves no regulator handle acquired from any starting state
with no handle held; but the handle-non-null-only-while-enabled invariant
does not survive every mid-sequence failure of the enable path — a
set-voltage or set-load failure returns with the handle still acquired and
the regulator not enabled (only a regulator_enable failure releases it). -/
theorem c7_amended (env : RegEnv) (s : RegState) :
    (vreg_setup env s "ldo" false).2.handle = none ∧
    (vreg_setup env (vreg_setup env s "ldo" true).2 "ldo" false).2.handle = none ∧
    (env.getOk = none →
      (vreg_setup env ⟨none, false⟩ "ldo" true).2.handle = none) ∧
    (env.enableRc ≠ 0 → (0 < env.countVoltages → env.setVoltageRc = 0) →
      env.setLoadRc = 0 →
      (vreg_setup env ⟨none, false⟩ "ldo" true).2.handle = none) := by
  have hdis : ∀ t : RegState, (vreg_setup env t "ldo" false).2.handle = none := by
    intro t
    rcases vreg_setup_disable_handle env t with h | ⟨h, hh⟩
    · exact h
    · rw [h]
      exact hh
  refine ⟨hdis s, hdis _, ?_, ?_⟩
  · intro hg
    simp [vreg_setup, hg, ldo_self]
  · intro he hv hl
    rcases hg : env.getOk with - | h
    · simp [vreg_setup, hg, ldo_self]
    · by_cases hc : 0 < env.countVoltages
      · simp [vreg_setup, hg, vreg_setup_enable, hv hc, hl, he, ldo_self]
      · simp [vreg_setup, hg, vreg_setup_enable, hc, hl, he, ldo_self]

/-- Witness for c7_amended with every regulator call succeeding except
regulator_enable (rc -5), from the empty state. -/
theorem c7_amended_witness :
    (vreg_setup ⟨some 2, 0, 1, 0, 0, -5⟩ ⟨none, false⟩ "ldo" false).2.handle = none ∧
    (vreg_setup ⟨some 2, 0, 1, 0, 0, -5⟩
      (vreg_setup ⟨some 2, 0, 1, 0, 0, -5⟩ ⟨none, false⟩ "ldo" true).2
      "ldo" false).2.handle = none ∧
    ((⟨some 2, 0, 1, 0, 0, -5⟩ : RegEnv).getOk = none →
      (vreg_setup ⟨some 2, 0, 1, 0, 0, -5⟩ ⟨none, false⟩ "ldo" true).2.handle = none) ∧
    ((⟨some 2, 0, 1, 0, 0, -5⟩ : RegEnv).enableRc ≠ 0 →
      (0 < (⟨some 2, 0, 1, 0, 0, -5⟩ : RegEnv).countVoltages →
        (⟨some 2, 0, 1, 0, 0, -5⟩ : RegEnv).setVoltageRc = 0) →
      (⟨some 2, 0, 1, 0, 0, -5⟩ : RegEnv).setLoadRc = 0 →
      (vreg_setup ⟨some 2, 0, 1, 0, 0, -5⟩ ⟨none, false⟩ "ldo" true).2.handle = none) :=
  c7_amended ⟨some 2, 0, 1, 0, 0, -5⟩ ⟨none, false⟩

/-- Modelled from the spec: the two accepted variant codes returned by the
external sensor-identification query get_fpsensor_type (oplus_fp_common is
not under src/); only their distinctness from other values is relied on. -/
def FP_JIIOV_0301 : Nat := 301

/-- See FP_JIIOV_0301. -/
def FP_JIIOV_0302 : Nat := 302

/-- Shallow embedding of ancfp_init (jiiov_platform.c:746): a sensor type
that is neither accepted variant logs an error and returns -EINVAL before any
registration; otherwise the platform driver is registered, and then (in the
netlink build) the netlink socket is created and the touch handler registered
regardless of the registration return code. Result: (return value, platform
driver registered, netlink created and touch handler registered). -/
def ancfp_init (sensor_type : Nat) (registerRc : Int) : Int × Bool × Bool :=
  if sensor_type ≠ FP_JIIOV_0302 ∧ sensor_type ≠ FP_JIIOV_0301 then
    (-22, false, false)
  else (registerRc, true, true)

/-- C8 is false as the claim states it: at the concrete unmatched sensor type
0, ancfp_init does skip registration and touches no resources, but it returns
-EINVAL — an error exit, not success. -/
theorem c8_counterexample :
    ancfp_init 0 0 = (-22, false, false) ∧ ((-22 : Int) ≠ 0) := by
  decide

/-- C8 amended: when the sensor-identification query returns neither accepted
variant code, module load skips driver registration and touches no resources
(no platform-driver registration, no netlink socket, no touch-handler
registration), but it returns -EINVAL, an error exit, not success. -/
theorem c8_amended (t : Nat) (rc : Int)
    (h1 : t ≠ FP_JIIOV_0302) (h2 : t ≠ FP_JIIOV_0301) :
    ancfp_init t rc = (-22, false, false) := by
  simp [ancfp_init, h1, h2]

/-- Witness for c8_amended at sensor type 0 and register rc 5. -/
theorem c8_amended_witness :
    ((0 : Nat) ≠ FP_JIIOV_0302) ∧ ((0 : Nat) ≠ FP_JIIOV_0301) ∧
    ancfp_init 0 5 = (-22, false, false) :=
  ⟨by decide, by decide, c8_amended 0 5 (by decide) (by decide)⟩

end JiiovPlatform
